import Mathlib

/-!
Shallow embedding of the rating-sync tool (src/main.py) and proofs about
its rating codec, reconciliation logic and per-track control loop.

Modelling conventions:
* Python ints are `Int` (library ratings) or `Nat` (tag rating bytes);
  `%` and `//` on Python ints with a positive divisor agree with
  `Int.emod` / `Int.ediv`, which are used explicitly.
* Timestamps (file mtime, track last-played date) are rational seconds,
  so `timedelta.total_seconds() < 1` becomes a `Rat` comparison.
* Python exceptions (the two `assert` statements) are modelled as error
  values carried in the result records; log lines emitted before an
  exception are kept, later statements do not run.
* The global `dry` flag is passed explicitly.
-/

set_option autoImplicit false

namespace ITunesTagSync

/-- Vendor key under which the POPM rating frame is stored (main.py line 23). -/
def WMP : String := "Windows Media Player 9 Series"

/-- Model of one POPM (popularity) frame of an ID3 tag: an email key, a
rating byte and a play count. -/
structure PopmFrame where
  email : String
  rating : Nat
  playCount : Nat
  deriving Repr, DecidableEq

/-- Model of the eyed3 popularities accessor: the POPM frames in file order. -/
abbrev Popularities := List PopmFrame

/-- Model of popularities.get: the first frame whose email matches, if any. -/
def Popularities.get (ps : Popularities) (email : String) : Option PopmFrame :=
  match ps with
  | [] => none
  | p :: rest => if p.email = email then some p else Popularities.get rest email

/-- Model of popularities.set: update the first frame carrying the given
email in place, or append a fresh frame when none exists. -/
def Popularities.set (ps : Popularities) (email : String) (rating playCount : Nat) :
    Popularities :=
  match ps with
  | [] => [⟨email, rating, playCount⟩]
  | p :: rest =>
    if p.email = email then { p with rating := rating, playCount := playCount } :: rest
    else p :: Popularities.set rest email rating playCount

/-- Model of popularities.remove: drop the first frame carrying the given
email, if any. -/
def Popularities.remove (ps : Popularities) (email : String) : Popularities :=
  match ps with
  | [] => []
  | p :: rest => if p.email = email then rest else p :: Popularities.remove rest email

/-- Model of an eyed3 ID3 tag: the POPM frames plus the displayable
metadata fields that the spec's refresh command is said to compare. The
metadata fields are inert for the code under src/. -/
structure Tag where
  popularities : Popularities
  artist : String
  album : String
  album_artist : String
  title : String
  genre : String
  deriving Repr, DecidableEq

/-- Model of the iTunes COM track object (the Track protocol of main.py).
Album, AlbumArtist and Genre exist on the COM object but are never read by
the code; they are carried only so claims about metadata comparison can be
stated. PlayedDate is rational seconds. -/
structure Track where
  Name : String
  Artist : String
  Album : String
  AlbumArtist : String
  Genre : String
  Rating : Int
  Location : String
  Kind : Int
  PlayedDate : Rat
  deriving Repr, DecidableEq

/-- Translation of get_tag_rating (main.py lines 104-117). -/
def get_tag_rating (tag : Tag) : Int :=
  match Popularities.get tag.popularities WMP with
  | none => 0
  | some popm =>
    if popm.rating ≤ 31 then 1
    else if popm.rating ≤ 95 then 2
    else if popm.rating ≤ 159 then 3
    else if popm.rating ≤ 221 then 4
    else 5

/-- Errors raised by the rating code, i.e. the two assert statements in
main.py: invalidRating is the assert at line 135 (library rating not a
multiple of 20) and invalidStar the assert at line 125 (star outside 1..5). -/
inductive RatingError where
  | invalidRating
  | invalidStar
  deriving Repr, DecidableEq

/-- Translation of set_tag_rating (main.py lines 120-127). The Python
lookup table is [None, 1, 64, 128, 196, 255]; index 0 is unreachable
because of the rating == 0 early return, so it is written here as 0. A
failing assert becomes an error value. -/
def set_tag_rating (tag : Tag) (rating : Int) : Except RatingError Tag :=
  if rating = 0 then
    .ok { tag with popularities := Popularities.remove tag.popularities WMP }
  else if 1 ≤ rating ∧ rating ≤ 5 then
    let popm_rating := List.getD [0, 1, 64, 128, 196, 255] rating.toNat 0
    .ok { tag with popularities := Popularities.set tag.popularities WMP popm_rating 0 }
  else
    .error .invalidStar

/-- Library-rating decoding as performed at main.py lines 134-136: values
that are not multiples of 20 are rejected by the assert, otherwise the
value is floor-divided by 20. -/
def decode_library_rating (raw : Int) : Except RatingError Int :=
  if raw % 20 = 0 then .ok (raw / 20) else .error .invalidRating

/-- Library-rating encoding as performed at main.py line 143: the star
value is multiplied by 20 before being written back to the track. -/
def encode_library_rating (star : Int) : Int := star * 20

/-- The force-rating CLI choice (main.py line 130): take the iTunes side
or the tag side whenever the two ratings conflict. -/
inductive ForceRating where
  | itunes
  | tag
  deriving Repr, DecidableEq

/-- Decisions of the reconciler, in the vocabulary of the spec. -/
inductive Decision where
  | NoOp
  | SetLibrary (star : Int)
  | SetTag (star : Int)
  deriving Repr, DecidableEq

/-- Decision structure of sync_rating (main.py lines 152-171): the branch
taken as a function of the two star ratings, the file modification time,
the track last-played time and the force policy. A call of
update_itunes_rating is SetLibrary (the tag value wins) and a call of
update_tag_rating is SetTag (the library value wins). -/
def reconcile (libraryStar tagStar : Int) (fileModifiedAt trackLastPlayedAt : Rat)
    (policy : Option ForceRating) : Decision :=
  if tagStar ≠ 0 ∧ libraryStar = 0 then .SetLibrary tagStar
  else if tagStar = 0 ∧ libraryStar ≠ 0 then .SetTag libraryStar
  else if tagStar ≠ 0 ∧ libraryStar ≠ 0 ∧ tagStar ≠ libraryStar then
    match policy with
    | some .itunes => .SetTag libraryStar
    | some .tag => .SetLibrary tagStar
    | none =>
      if fileModifiedAt - trackLastPlayedAt < 1 then .SetTag libraryStar
      else .SetLibrary tagStar
  else .NoOp

/-- Log message fragment passed at main.py lines 153 and 155. -/
def settingMsg : String := "setting"

/-- Log message fragment passed at main.py lines 158 and 160. -/
def forceSettingMsg : String := "FORCE-setting"

/-- Log message fragment passed at main.py lines 168 and 170. -/
def updatingMsg : String := "updating older"

/-- Result of one sync_rating call: the possibly updated track and tag,
the returned dirty flag, the log lines emitted and, when an assert fired,
the pending exception (in which case dirty is meaningless and later
statements did not run). -/
structure RatingSync where
  track : Track
  tag : Tag
  dirty : Bool
  log : List String
  error : Option RatingError
  deriving Repr, DecidableEq

/-- Translation of sync_rating (main.py lines 133-171). dry is the global
dry flag and mtime stands for os.path.getmtime(track.Location). -/
def sync_rating (dry : Bool) (mtime : Rat) (tag : Tag) (track : Track)
    (force_rating : Option ForceRating) : RatingSync :=
  if track.Rating % 20 = 0 then
    let itunes_rating : Int := track.Rating / 20
    let tag_rating : Int := get_tag_rating tag
    let update_itunes_rating : String → RatingSync := fun msg =>
      { track := if dry then track else { track with Rating := tag_rating * 20 },
        tag := tag,
        dirty := false,
        log := [msg ++ " iTunes rating " ++ toString itunes_rating ++ " => " ++
          toString tag_rating],
        error := none }
    let update_tag_rating : String → RatingSync := fun msg =>
      let line := msg ++ " tag rating " ++ toString tag_rating ++ " => " ++
        toString itunes_rating
      if dry then
        { track := track, tag := tag, dirty := false, log := [line], error := none }
      else
        match set_tag_rating tag itunes_rating with
        | .ok t => { track := track, tag := t, dirty := true, log := [line], error := none }
        | .error e =>
          { track := track, tag := tag, dirty := false, log := [line], error := some e }
    if tag_rating ≠ 0 ∧ itunes_rating = 0 then
      update_itunes_rating settingMsg
    else if tag_rating = 0 ∧ itunes_rating ≠ 0 then
      update_tag_rating settingMsg
    else if tag_rating ≠ 0 ∧ itunes_rating ≠ 0 ∧ tag_rating ≠ itunes_rating then
      match force_rating with
      | some .itunes => update_tag_rating forceSettingMsg
      | some .tag => update_itunes_rating forceSettingMsg
      | none =>
        let tag_date := mtime
        let track_date := track.PlayedDate
        let debugLine := "file mtime is " ++ toString tag_date ++
          ", track last played date is " ++ toString track_date
        let r :=
          if tag_date - track_date < 1 then update_tag_rating updatingMsg
          else update_itunes_rating updatingMsg
        { r with log := debugLine :: r.log }
    else
      { track := track, tag := tag, dirty := false, log := [], error := none }
  else
    { track := track, tag := tag, dirty := false, log := [], error := some .invalidRating }

/-- Translation of get_label (main.py lines 187-188). -/
def get_label (track : Track) : String :=
  track.Artist ++ " - " ++ track.Name

/-- Per-track filesystem environment: the parse of the file at the track
location (none when eyed3.load raises) and its modification time. -/
structure Env where
  fsTag : Option Tag
  mtime : Rat
  deriving Repr, DecidableEq

/-- Log message emitted at main.py line 179 when the tag cannot be loaded. -/
def loadErrorMsg : String := "could not load file"

/-- Result of sync_tag: the final track, the in-memory tag (none when no
tag was loaded), the on-disk tag, the dirty flag, the number of tag.save
calls, the log and a propagating exception. -/
structure TagSync where
  track : Track
  memTag : Option Tag
  diskTag : Option Tag
  dirty : Bool
  saveCount : Nat
  log : List String
  error : Option RatingError
  deriving Repr, DecidableEq

/-- Translation of sync_tag (main.py lines 174-184): load the tag, logging
and returning on failure; run sync_rating; save the tag exactly once when
the result is dirty and dry mode is off. -/
def sync_tag (dry : Bool) (env : Env) (track : Track)
    (force_rating : Option ForceRating) : TagSync :=
  match env.fsTag with
  | none =>
    { track := track, memTag := none, diskTag := env.fsTag, dirty := false,
      saveCount := 0, log := [loadErrorMsg], error := none }
  | some tag =>
    let r := sync_rating dry env.mtime tag track force_rating
    match r.error with
    | some e =>
      { track := r.track, memTag := some r.tag, diskTag := env.fsTag, dirty := false,
        saveCount := 0, log := r.log, error := some e }
    | none =>
      if r.dirty && !dry then
        { track := r.track, memTag := some r.tag, diskTag := some r.tag, dirty := r.dirty,
          saveCount := 1, log := r.log, error := none }
      else
        { track := r.track, memTag := some r.tag, diskTag := env.fsTag, dirty := r.dirty,
          saveCount := 0, log := r.log, error := none }

/-- Warning emitted at main.py line 279 for a track with empty location. -/
def missingMsg : String := "file does not exist"

/-- Marker for the log.exception call at main.py line 288. -/
def exceptionMsg : String := "exception"

/-- Result of processing one track through the main loop body together
with the clean epilogue for that track (main.py lines 274-294). -/
structure RunResult where
  track : Track
  memTag : Option Tag
  diskTag : Option Tag
  dirty : Bool
  saveCount : Nat
  refreshed : Bool
  deleted : Bool
  log : List String
  deriving Repr, DecidableEq

/-- Translation of the per-track work of main (main.py lines 274-294): a
track with an empty location is warned about and queued for the clean
pass, which logs it and deletes it only outside dry mode; otherwise the
update command calls UpdateInfoFromFile (the refreshed flag) unless dry,
then the sync command runs sync_tag, and an exception escaping it is
logged and swallowed by the per-track try/except. -/
def runTrack (dry update sync clean : Bool) (env : Env) (track : Track)
    (force_rating : Option ForceRating) : RunResult :=
  if track.Location = "" then
    { track := track, memTag := none, diskTag := env.fsTag, dirty := false, saveCount := 0,
      refreshed := false,
      deleted := clean && !dry,
      log := [missingMsg] ++ (if clean then [get_label track ++ ": deleting"] else []) }
  else
    let refreshed := update && !dry
    if sync then
      let ts := sync_tag dry env track force_rating
      { track := ts.track, memTag := ts.memTag, diskTag := ts.diskTag, dirty := ts.dirty,
        saveCount := ts.saveCount, refreshed := refreshed, deleted := false,
        log := ts.log ++ (match ts.error with | some _ => [exceptionMsg] | none => []) }
    else
      { track := track, memTag := none, diskTag := env.fsTag, dirty := false, saveCount := 0,
        refreshed := refreshed, deleted := false, log := [] }

/-- Concrete tag holding a 2-star vendor rating, for exercising dry runs. -/
def c4Tag : Tag :=
  { popularities := [⟨WMP, 64, 0⟩], artist := "", album := "", album_artist := "",
    title := "", genre := "" }

/-- Concrete located track rated 40 (2 stars), for exercising dry runs. -/
def c4Track : Track :=
  { Name := "n", Artist := "a", Album := "", AlbumArtist := "", Genre := "",
    Rating := 40, Location := "x", Kind := 1, PlayedDate := 0 }

/-- Concrete environment for exercising dry runs: c4Tag on disk, mtime 0. -/
def c4Env : Env := { fsTag := some c4Tag, mtime := 0 }

/-- Concrete tag whose displayable fields all match those of c5Track. -/
def c5Tag : Tag :=
  { popularities := [], artist := "a", album := "b", album_artist := "c",
    title := "t", genre := "g" }

/-- Concrete located track whose fields all match those of c5Tag. -/
def c5Track : Track :=
  { Name := "t", Artist := "a", Album := "b", AlbumArtist := "c", Genre := "g",
    Rating := 0, Location := "x", Kind := 1, PlayedDate := 0 }

/-- C1: with both star ratings non-zero, unequal and no force policy, the
reconciler computes delta = fileModifiedAt - trackLastPlayedAt and decides
SetTag(libraryStar) when delta < 1 second, SetLibrary(tagStar) otherwise. -/
theorem c1_conflict_tiebreak (libraryStar tagStar : Int)
    (fileModifiedAt trackLastPlayedAt : Rat)
    (hl : libraryStar ≠ 0) (ht : tagStar ≠ 0) (hne : libraryStar ≠ tagStar) :
    reconcile libraryStar tagStar fileModifiedAt trackLastPlayedAt none =
      if fileModifiedAt - trackLastPlayedAt < 1 then Decision.SetTag libraryStar
      else Decision.SetLibrary tagStar := by
  have h3 : tagStar ≠ libraryStar := fun h => hne h.symm
  simp [reconcile, hl, ht, h3]

/-- Witness for C1 at libraryStar 2, tagStar 4, both timestamps 0. -/
theorem c1_conflict_tiebreak_witness :
    reconcile 2 4 0 0 none =
      if (0 : Rat) - 0 < 1 then Decision.SetTag 2 else Decision.SetLibrary 4 :=
  c1_conflict_tiebreak 2 4 0 0 (by decide) (by decide) (by decide)

/-- C2 counterexample: at libraryStar 2, tagStar 4, fileModifiedAt = 0 and
trackLastPlayedAt = 2 (file older than last-played by 2 seconds), the delta
is -2 < 1, so the code decides SetTag 2 (library side wins), not
SetLibrary 4 as claimed. -/
theorem c2_counterexample :
    reconcile 2 4 0 2 none = Decision.SetTag 2 ∧
    reconcile 2 4 0 2 none ≠ Decision.SetLibrary 4 := by
  have h : reconcile 2 4 0 2 none = Decision.SetTag 2 := by norm_num [reconcile]
  exact ⟨h, by rw [h]; decide⟩

/-- C2 amended: for libraryStar 2, tagStar 4, no force policy,
fileModifiedAt = t0 and trackLastPlayedAt = t0 + 2 seconds, reconciliation
decides SetTag 2: the library side wins, because the delta is negative and
hence below the 1-second threshold. -/
theorem c2_amended (t0 : Rat) :
    reconcile 2 4 t0 (t0 + 2) none = Decision.SetTag 2 := by
  have hd : t0 - (t0 + 2) < 1 := by linarith
  norm_num [reconcile, hd]

/-- C3: with both star ratings non-zero and unequal, a force policy of the
tag side yields SetLibrary(tagStar) and a force policy of the iTunes
(library) side yields SetTag(libraryStar), for all timestamps. -/
theorem c3_force_unconditional (libraryStar tagStar : Int)
    (fileModifiedAt trackLastPlayedAt : Rat)
    (hl : libraryStar ≠ 0) (ht : tagStar ≠ 0) (hne : libraryStar ≠ tagStar) :
    reconcile libraryStar tagStar fileModifiedAt trackLastPlayedAt
        (some ForceRating.tag) = Decision.SetLibrary tagStar ∧
    reconcile libraryStar tagStar fileModifiedAt trackLastPlayedAt
        (some ForceRating.itunes) = Decision.SetTag libraryStar := by
  have h3 : tagStar ≠ libraryStar := fun h => hne h.symm
  constructor <;> simp [reconcile, hl, ht, h3]

/-- Witness for C3 at libraryStar 2, tagStar 4, timestamps 5 and 7. -/
theorem c3_force_unconditional_witness :
    reconcile 2 4 5 7 (some ForceRating.tag) = Decision.SetLibrary 4 ∧
    reconcile 2 4 5 7 (some ForceRating.itunes) = Decision.SetTag 2 :=
  c3_force_unconditional 2 4 5 7 (by decide) (by decide) (by decide)

/-- C7: for every raw library rating in {0, 20, 40, 60, 80, 100}, encoding
the result of decoding it gives back the original raw value. -/
theorem c7_library_roundtrip (raw : Int)
    (h : raw ∈ ([0, 20, 40, 60, 80, 100] : List Int)) :
    (decode_library_rating raw).map encode_library_rating = .ok raw := by
  fin_cases h <;> rfl

/-- Witness for C7 at raw = 40. -/
theorem c7_library_roundtrip_witness :
    (decode_library_rating 40).map encode_library_rating = .ok 40 :=
  c7_library_roundtrip 40 (by decide)

/-- C8: every raw value that is not a multiple of 20 is rejected by
library-rating decoding with the invalid-rating error, never coerced. -/
theorem c8_invalid_library_rating (raw : Int) (h : ¬ raw % 20 = 0) :
    decode_library_rating raw = .error .invalidRating := by
  simp [decode_library_rating, h]

/-- Witness for C8 at raw = 7. -/
theorem c8_invalid_library_rating_witness :
    decode_library_rating 7 = .error .invalidRating :=
  c8_invalid_library_rating 7 (by decide)

/-- Reading back the email just written returns the fresh frame, whether it
replaced an existing frame or was appended. -/
theorem Popularities.get_set (ps : Popularities) (email : String) (r c : Nat) :
    Popularities.get (Popularities.set ps email r c) email = some ⟨email, r, c⟩ := by
  induction ps with
  | nil => simp [Popularities.set, Popularities.get]
  | cons p rest ih =>
    rcases eq_or_ne p.email email with h | h
    · simp [Popularities.set, Popularities.get, h]
    · simp [Popularities.set, Popularities.get, h, ih]

/-- A frame list holding no frame for the given email yields no get result. -/
theorem Popularities.get_eq_none_of_countP_zero (ps : Popularities) (email : String)
    (h : ps.countP (fun p => p.email == email) = 0) :
    Popularities.get ps email = none := by
  induction ps with
  | nil => rfl
  | cons p rest ih =>
    rw [List.countP_cons] at h
    by_cases he : p.email = email
    · simp [he] at h
    · simp only [Popularities.get, he, if_false]
      exact ih (by simpa [he] using h)

/-- Removing the sole frame carried for an email leaves no frame for it. -/
theorem Popularities.get_remove (ps : Popularities) (email : String)
    (h : ps.countP (fun p => p.email == email) ≤ 1) :
    Popularities.get (Popularities.remove ps email) email = none := by
  induction ps with
  | nil => rfl
  | cons p rest ih =>
    rw [List.countP_cons] at h
    by_cases he : p.email = email
    · have h0 : rest.countP (fun p => p.email == email) = 0 := by
        simp only [he, beq_self_eq_true, if_pos] at h
        omega
      simp only [Popularities.remove, he, if_pos]
      exact Popularities.get_eq_none_of_countP_zero rest email h0
    · simp only [Popularities.remove, he, if_false, Popularities.get]
      exact ih (by simpa [he] using h)

/-- C9: encoding a star in 1..5 into the tag and decoding the result gives
back exactly star, and encoding 0 removes the vendor entry so that a
subsequent decode returns 0. The countP hypothesis states that the tag
carries at most one POPM frame under the vendor key, the well-formed shape
the tag format and eyed3 maintain. -/
theorem c9_tag_roundtrip (tag : Tag) (star : Int) (h1 : 1 ≤ star) (h5 : star ≤ 5)
    (hwf : tag.popularities.countP (fun p => p.email == WMP) ≤ 1) :
    (set_tag_rating tag star).map get_tag_rating = .ok star ∧
    (set_tag_rating tag 0).map get_tag_rating = .ok 0 := by
  constructor
  · interval_cases star
    all_goals norm_num [set_tag_rating, Except.map, get_tag_rating, List.getD,
      Popularities.get_set]
    all_goals decide
  · norm_num [set_tag_rating, Except.map, get_tag_rating,
      Popularities.get_remove _ _ hwf]

/-- Witness for C9 at star = 3 on an initially empty tag. -/
theorem c9_tag_roundtrip_witness :
    (set_tag_rating ⟨[], "", "", "", "", ""⟩ 3).map get_tag_rating = .ok 3 ∧
    (set_tag_rating ⟨[], "", "", "", "", ""⟩ 0).map get_tag_rating = .ok 0 :=
  c9_tag_roundtrip ⟨[], "", "", "", "", ""⟩ 3 (by decide) (by decide) (by decide)

/-- C10: whenever a vendor POPM frame is present with a byte value of at
most 255, decoding yields a star in 1..5 and never 0; a present frame with
byte 0 decodes to star 1, so a decoded 0 occurs only when the vendor entry
is absent. -/
theorem c10_present_never_zero (tag : Tag) (popm : PopmFrame)
    (h : Popularities.get tag.popularities WMP = some popm) (hb : popm.rating ≤ 255) :
    1 ≤ get_tag_rating tag ∧ get_tag_rating tag ≤ 5 ∧
    get_tag_rating tag ≠ 0 ∧ (popm.rating = 0 → get_tag_rating tag = 1) := by
  simp only [get_tag_rating, h]
  split_ifs <;> exact ⟨by omega, by omega, by omega, fun h0 => by omega⟩

/-- C5 counterexample: a track whose tag metadata fields (artist, album,
album-artist, title, genre) all equal the corresponding library track
fields, processed with the update command on and dry-run off, still
triggers the refresh-from-file operation: main.py lines 283-284 call
UpdateInfoFromFile without comparing any field. -/
theorem c5_counterexample :
    c5Tag.artist = c5Track.Artist ∧ c5Tag.album = c5Track.Album ∧
    c5Tag.album_artist = c5Track.AlbumArtist ∧ c5Tag.title = c5Track.Name ∧
    c5Tag.genre = c5Track.Genre ∧
    (runTrack false true false false ⟨some c5Tag, 0⟩ c5Track none).refreshed = true :=
  ⟨rfl, rfl, rfl, rfl, rfl, rfl⟩

/-- C5 amended: the update command is unconditional: for every located
track it triggers the refresh-from-file operation exactly when dry-run is
off, without comparing the tag fields against the library fields. -/
theorem c5_amended (dry sync clean : Bool) (env : Env) (track : Track)
    (force_rating : Option ForceRating) (h : ¬ track.Location = "") :
    (runTrack dry true sync clean env track force_rating).refreshed = !dry := by
  cases sync <;> simp [runTrack, h]

/-- Witness for C5 amended at a located track with dry-run off. -/
theorem c5_amended_witness :
    (runTrack false true false false ⟨none, 0⟩ c5Track none).refreshed = !false :=
  c5_amended false false false ⟨none, 0⟩ c5Track none (by decide)

/-- Witness for C10 on a tag holding a vendor frame with byte value 0. -/
theorem c10_present_never_zero_witness :
    1 ≤ get_tag_rating ⟨[⟨WMP, 0, 0⟩], "", "", "", "", ""⟩ ∧
    get_tag_rating ⟨[⟨WMP, 0, 0⟩], "", "", "", "", ""⟩ ≤ 5 ∧
    get_tag_rating ⟨[⟨WMP, 0, 0⟩], "", "", "", "", ""⟩ ≠ 0 ∧
    ((0 : Nat) = 0 → get_tag_rating ⟨[⟨WMP, 0, 0⟩], "", "", "", "", ""⟩ = 1) :=
  c10_present_never_zero ⟨[⟨WMP, 0, 0⟩], "", "", "", "", ""⟩ ⟨WMP, 0, 0⟩
    (by simp [Popularities.get]) (by decide)

/-- The dirty flag of sync_rating can be set only on the branches where
the reconciler decision is SetTag of the library star: tag freshly rated
from an unrated state, force of the iTunes side, or conflict with the file
younger than the 1-second threshold. -/
theorem sync_rating_dirty_setTag (dry : Bool) (mtime : Rat) (tag : Tag) (track : Track)
    (force_rating : Option ForceRating)
    (hd : (sync_rating dry mtime tag track force_rating).dirty = true) :
    reconcile (track.Rating / 20) (get_tag_rating tag) mtime track.PlayedDate
      force_rating = Decision.SetTag (track.Rating / 20) := by
  by_cases hmod : track.Rating % 20 = 0
  · by_cases hc1 : get_tag_rating tag ≠ 0 ∧ track.Rating / 20 = 0
    · simp [sync_rating, hmod, hc1] at hd
    · by_cases hc2 : get_tag_rating tag = 0 ∧ track.Rating / 20 ≠ 0
      · simp [reconcile, hc1, hc2]
      · by_cases hc3 : get_tag_rating tag ≠ 0 ∧ track.Rating / 20 ≠ 0 ∧
            get_tag_rating tag ≠ track.Rating / 20
        · match force_rating with
          | some .itunes => simp [reconcile, hc1, hc2, hc3]
          | some .tag => simp [sync_rating, hmod, hc1, hc2, hc3] at hd
          | none =>
            by_cases ht : mtime - track.PlayedDate < 1
            · simp [reconcile, hc1, hc2, hc3, ht]
            · simp [sync_rating, hmod, hc1, hc2, hc3, ht] at hd
        · simp [sync_rating, hmod, hc1, hc2, hc3] at hd
  · simp [sync_rating, hmod] at hd

/-- C6: the tag is saved at most once per track, a save happens only when
the dirty flag is set and dry-run is off, and whenever the reconciler
decision for the loaded tag is NoOp or a library-side update the tag is
never saved. -/
theorem c6_tag_saved_at_most_once (dry : Bool) (env : Env) (track : Track)
    (force_rating : Option ForceRating) :
    (sync_tag dry env track force_rating).saveCount ≤ 1 ∧
    ((sync_tag dry env track force_rating).saveCount = 1 →
      (sync_tag dry env track force_rating).dirty = true ∧ dry = false) ∧
    (∀ tag, env.fsTag = some tag →
      (reconcile (track.Rating / 20) (get_tag_rating tag) env.mtime track.PlayedDate
          force_rating = Decision.NoOp ∨
        ∃ s, reconcile (track.Rating / 20) (get_tag_rating tag) env.mtime
          track.PlayedDate force_rating = Decision.SetLibrary s) →
      (sync_tag dry env track force_rating).saveCount = 0) := by
  obtain ⟨fsTag, mtime⟩ := env
  cases fsTag with
  | none => simp [sync_tag]
  | some tag =>
    simp only [sync_tag]
    rcases he : (sync_rating dry mtime tag track force_rating).error with _ | e
    · rcases hd : (sync_rating dry mtime tag track force_rating).dirty with _ | _
      · simp [hd]
      · cases dry with
        | true => simp [hd]
        | false =>
          have hrec := sync_rating_dirty_setTag false mtime tag track force_rating hd
          simp only [hd, Bool.not_false, Bool.and_self, if_pos]
          refine ⟨by simp, by simp, ?_⟩
          intro tag2 htag2 hdec
          injection htag2 with h
          subst h
          rcases hdec with hdec | ⟨s, hdec⟩ <;> rw [hrec] at hdec <;> simp at hdec
    · simp [he]

/-- Witness for C6 at a track rated 40 whose tag also decodes to 2 stars:
the reconciler decision is NoOp and the tag is not saved. -/
theorem c6_tag_saved_at_most_once_witness :
    (sync_tag false ⟨some ⟨[⟨WMP, 64, 0⟩], "", "", "", "", ""⟩, 0⟩
        ⟨"", "", "", "", "", 40, "x", 1, 0⟩ none).saveCount = 0 :=
  (c6_tag_saved_at_most_once false ⟨some ⟨[⟨WMP, 64, 0⟩], "", "", "", "", ""⟩, 0⟩
      ⟨"", "", "", "", "", 40, "x", 1, 0⟩ none).2.2
    ⟨[⟨WMP, 64, 0⟩], "", "", "", "", ""⟩ rfl
    (Or.inl (by decide))

/-- With a star inside 1..5 the tag write succeeds and installs the table
byte under the vendor key. -/
theorem set_tag_rating_ok (tag : Tag) (star : Int) (h1 : 1 ≤ star) (h5 : star ≤ 5) :
    set_tag_rating tag star =
      .ok { tag with popularities := Popularities.set tag.popularities WMP
                       (List.getD [0, 1, 64, 128, 196, 255] star.toNat 0) 0 } := by
  unfold set_tag_rating
  rw [if_neg (by omega), if_pos ⟨h1, h5⟩]

/-- For a track whose library rating lies in the valid 0..100 range, a dry
sync_rating run emits exactly the log lines of the real run, raises the
same errors, reports not-dirty and leaves both the track and the tag
untouched. -/
theorem sync_rating_dry_run (mtime : Rat) (tag : Tag) (track : Track)
    (force_rating : Option ForceRating)
    (h0 : 0 ≤ track.Rating) (h100 : track.Rating ≤ 100) :
    (sync_rating true mtime tag track force_rating).log =
      (sync_rating false mtime tag track force_rating).log ∧
    (sync_rating true mtime tag track force_rating).error =
      (sync_rating false mtime tag track force_rating).error ∧
    (sync_rating true mtime tag track force_rating).track = track ∧
    (sync_rating true mtime tag track force_rating).tag = tag ∧
    (sync_rating true mtime tag track force_rating).dirty = false := by
  by_cases hmod : track.Rating % 20 = 0
  · have hdiv5 : track.Rating / 20 ≤ 5 := by omega
    by_cases hc1 : get_tag_rating tag ≠ 0 ∧ track.Rating / 20 = 0
    · simp [sync_rating, hmod, hc1]
    · by_cases hc2 : get_tag_rating tag = 0 ∧ track.Rating / 20 ≠ 0
      · obtain ⟨hc2a, hc2b⟩ := hc2
        have hok := set_tag_rating_ok tag (track.Rating / 20) (by omega) hdiv5
        simp [sync_rating, hmod, hc1, hc2a, hc2b, hok]
      · by_cases hc3 : get_tag_rating tag ≠ 0 ∧ track.Rating / 20 ≠ 0 ∧
            get_tag_rating tag ≠ track.Rating / 20
        · obtain ⟨hc3a, hc3b, hc3c⟩ := hc3
          have hok := set_tag_rating_ok tag (track.Rating / 20) (by omega) hdiv5
          match force_rating with
          | some .itunes => simp [sync_rating, hmod, hc1, hc2, hc3a, hc3b, hc3c, hok]
          | some .tag => simp [sync_rating, hmod, hc1, hc2, hc3a, hc3b, hc3c]
          | none =>
            by_cases ht : mtime - track.PlayedDate < 1
            · simp [sync_rating, hmod, hc1, hc2, hc3a, hc3b, hc3c, ht, hok]
            · simp [sync_rating, hmod, hc1, hc2, hc3a, hc3b, hc3c, ht]
        · simp [sync_rating, hmod, hc1, hc2, hc3]
  · simp [sync_rating, hmod]

/-- For a track whose library rating lies in the valid 0..100 range, a dry
sync_tag run emits exactly the log lines of the real run, raises the same
errors, and leaves the track, the in-memory tag and the on-disk tag
untouched without ever saving. -/
theorem sync_tag_dry_run (env : Env) (track : Track) (force_rating : Option ForceRating)
    (h0 : 0 ≤ track.Rating) (h100 : track.Rating ≤ 100) :
    (sync_tag true env track force_rating).log =
      (sync_tag false env track force_rating).log ∧
    (sync_tag true env track force_rating).error =
      (sync_tag false env track force_rating).error ∧
    (sync_tag true env track force_rating).track = track ∧
    (sync_tag true env track force_rating).memTag = env.fsTag ∧
    (sync_tag true env track force_rating).diskTag = env.fsTag ∧
    (sync_tag true env track force_rating).saveCount = 0 := by
  obtain ⟨fsTag, mtime⟩ := env
  cases fsTag with
  | none => simp [sync_tag]
  | some tag =>
    obtain ⟨hlog, herr, htrack, htag, hdirty⟩ :=
      sync_rating_dry_run mtime tag track force_rating h0 h100
    rcases he : (sync_rating false mtime tag track force_rating).error with _ | e
    · have herr2 : (sync_rating true mtime tag track force_rating).error = none :=
        herr.trans he
      rcases hdf : (sync_rating false mtime tag track force_rating).dirty with _ | _ <;>
        simp [sync_tag, herr2, he, hdirty, hlog, htrack, htag, hdf]
    · have herr2 : (sync_rating true mtime tag track force_rating).error = some e :=
        herr.trans he
      simp [sync_tag, herr2, he, hdirty, hlog, htrack, htag]

/-- C4: for every command combination on a track with a valid library
rating, a dry run produces exactly the log output (and hence the logged
decisions) of the real run, while the library rating, the in-memory tag
and the on-disk tag are unchanged, the tag is never saved, no metadata
refresh is triggered and no track is deleted. -/
theorem c4_dry_run_frame (update sync clean : Bool) (env : Env) (track : Track)
    (force_rating : Option ForceRating)
    (h0 : 0 ≤ track.Rating) (h100 : track.Rating ≤ 100) :
    (runTrack true update sync clean env track force_rating).log =
      (runTrack false update sync clean env track force_rating).log ∧
    (runTrack true update sync clean env track force_rating).track = track ∧
    ((runTrack true update sync clean env track force_rating).memTag = env.fsTag ∨
      (runTrack true update sync clean env track force_rating).memTag = none) ∧
    (runTrack true update sync clean env track force_rating).diskTag = env.fsTag ∧
    (runTrack true update sync clean env track force_rating).saveCount = 0 ∧
    (runTrack true update sync clean env track force_rating).refreshed = false ∧
    (runTrack true update sync clean env track force_rating).deleted = false := by
  by_cases hloc : track.Location = ""
  · simp [runTrack, hloc]
  · obtain ⟨hlog, herr, htrack, hmem, hdisk, hsave⟩ :=
      sync_tag_dry_run env track force_rating h0 h100
    cases sync with
    | false => simp [runTrack, hloc]
    | true => simp [runTrack, hloc, hlog, herr, htrack, hmem, hdisk, hsave]

/-- Witness for C4 with every command enabled on a located 2-star track. -/
theorem c4_dry_run_frame_witness :
    (runTrack true true true true c4Env c4Track none).log =
      (runTrack false true true true c4Env c4Track none).log ∧
    (runTrack true true true true c4Env c4Track none).track = c4Track ∧
    ((runTrack true true true true c4Env c4Track none).memTag = c4Env.fsTag ∨
      (runTrack true true true true c4Env c4Track none).memTag = none) ∧
    (runTrack true true true true c4Env c4Track none).diskTag = c4Env.fsTag ∧
    (runTrack true true true true c4Env c4Track none).saveCount = 0 ∧
    (runTrack true true true true c4Env c4Track none).refreshed = false ∧
    (runTrack true true true true c4Env c4Track none).deleted = false :=
  c4_dry_run_frame true true true c4Env c4Track none (by decide) (by decide)

end ITunesTagSync
